import Mathlib

/-!
Verification of the Langie support-agent workflow (src/agent.py).

The Python program wires ten stage functions into a LangGraph state graph:
INTAKE → UNDERSTAND → PREPARE → RETRIEVE → DECIDE → (CREATE | UPDATE) → DO
→ (CLOSE → COMPLETE | end).  The shared `AgentState` dict is threaded
through the stages; two routers (`route_after_decision`, `route_after_do`)
pick the conditional edges.  This file embeds the state record, the
capability clients, each stage function and the routers directly from the
source, and models the engine run loop (provided at run time by the
langgraph library, hence not part of src/) from the spec, §4.1.
-/

namespace LangSupport

/-- Whether the char list `p` is an initial segment of `t`
(Python `str.startswith`). -/
def startsWithL : List Char → List Char → Bool
  | _, [] => true
  | [], _ :: _ => false
  | a :: as, b :: bs => a == b && startsWithL as bs

/-- Whether `p` occurs as a contiguous run inside `t`
(Python `p in t` for strings). -/
def hasSubL : List Char → List Char → Bool
  | [], pat => pat.isEmpty
  | t@(_ :: ts), pat => startsWithL t pat || hasSubL ts pat

/-- Embeds Python substring membership `pat in s`. -/
def strContains (s pat : String) : Bool :=
  hasSubL s.toList pat.toList

/-- Embeds Python `str.lower` (character-wise, structural). -/
def strLower (s : String) : String :=
  String.mk (s.data.map Char.toLower)

/-- Embeds Python `str.upper` (character-wise, structural). -/
def strUpper (s : String) : String :=
  String.mk (s.data.map Char.toUpper)

/-- Whitespace for Python `str.strip`. -/
def isSpaceChar (c : Char) : Bool :=
  c == ' ' || c == '\t' || c == '\n' || c == '\r'

/-- Embeds Python `str.strip`: drop leading and trailing whitespace. -/
def strTrim (s : String) : String :=
  String.mk (((s.data.dropWhile isSpaceChar).reverse.dropWhile isSpaceChar).reverse)

/-- Embeds Python slicing `s[:n]` (by code points, as Python does). -/
def strTake (s : String) (n : Nat) : String :=
  String.mk (s.data.take n)

/-- Result shape of `parse_request_text`. -/
structure ParseResult where
  intent : String
  structured_query : String
  deriving DecidableEq, Repr

/-- Result shape of `enrich_records`. -/
structure EnrichResult where
  customer_sla : String
  historical_ticket_count : Nat
  deriving DecidableEq, Repr

/-- Result shape of `add_flags_calculations`; `calculated_priority` is the
Python float `priority * 1.5`, embedded exactly as a rational. -/
structure FlagsResult where
  is_urgent_flag : Bool
  calculated_priority : Rat
  deriving DecidableEq, Repr

/-- A non-empty knowledge-base record `{id, title, summary}`; the Python
empty dict `{}` is embedded as `Option.none` at the use sites. -/
structure Article where
  id : String
  title : String
  summary : String
  deriving DecidableEq, Repr

/-- The `structured_data` mapping written by UNDERSTAND: the merge of the
`parse_request_text` and `extract_entities` result dicts. -/
structure StructuredData where
  intent : String
  structured_query : String
  extracted_entities : List String
  deriving DecidableEq, Repr

/-- The `enriched_data` mapping written by PREPARE: the merge of the
`normalize_fields`, `enrich_records` and `add_flags_calculations` dicts. -/
structure EnrichedData where
  normalized_ticket_id : String
  customer_sla : String
  historical_ticket_count : Nat
  is_urgent_flag : Bool
  calculated_priority : Rat
  deriving DecidableEq, Repr

/-- The `decision` record written by DECIDE: `{"score", "outcome"}`, with
`escalation_status` merged in on the escalate branch. -/
structure Decision where
  score : Int
  outcome : String
  escalation_status : Option String
  deriving DecidableEq, Repr

/-- The `AgentState` TypedDict.  At run time it is a plain dict whose keys
may be absent, so every field added during the workflow (and every input
field) is an `Option`; `log` is initialized by the caller and always
present.  `retrieved_kb_article` is doubly optional: the outer layer is key
presence, the inner layer distinguishes `{}` from a real article. -/
structure AgentState where
  customer_name : Option String
  email : Option String
  query : Option String
  priority : Option Int
  ticket_id : Option String
  log : List String
  structured_data : Option StructuredData
  enriched_data : Option EnrichedData
  retrieved_kb_article : Option (Option Article)
  decision : Option Decision
  final_response : Option String
  final_status : Option String
  deriving DecidableEq, Repr

/-- The nodes added to the `StateGraph` in the graph-assembly section. -/
inductive Node where
  | INTAKE | UNDERSTAND | PREPARE | RETRIEVE | DECIDE
  | CREATE | UPDATE | DO | CLOSE | COMPLETE
  deriving DecidableEq, Repr

/-- Run-time failures of a run.  `keyError f` is Python's KeyError on a
missing state field `f`; `preconditionError`, `unhandledRouteLabel` and
`outOfFuel` belong to the engine model (spec §4.1, §7). -/
inductive Err where
  | keyError (field : String)
  | preconditionError (stage : Node)
  | unhandledRouteLabel (label : String)
  | outOfFuel
  deriving DecidableEq, Repr

/-- Reading a possibly-absent state field: Python `state[name]`. -/
def getF (o : Option α) (name : String) : Except Err α :=
  match o with
  | none => .error (.keyError name)
  | some a => .ok a

/-- The capability surface of `CommonMcpClient` and `AtlasMcpClient`:
each method becomes a field, so stages can be stated for any deterministic
provider; `defaultProvider` below is the source's concrete simulation. -/
structure Provider where
  parse_request_text : String → ParseResult
  normalize_fields : String → String
  add_flags_calculations : Int → String → FlagsResult
  solution_evaluation : Option Article → Int
  response_generation : String → String → Option Article → Except Err String
  extract_entities : String → List String
  enrich_records : String → EnrichResult
  knowledge_base_search : List String → Option Article
  escalation_decision : String → String
  update_ticket : String → String → String → String
  close_ticket : String → String
  trigger_notifications : String → String → String

/-- `execute_api_calls` delegates to `trigger_notifications` in the source. -/
def Provider.execute_api_calls (p : Provider) : String → String → String :=
  p.trigger_notifications

/-- The concrete simulated capabilities from `CommonMcpClient` and
`AtlasMcpClient` in src/agent.py. -/
def defaultProvider : Provider where
  parse_request_text := fun query =>
    if strContains (strLower query) "error code" then
      ⟨"technical_support", query⟩
    else
      ⟨"general_inquiry", query⟩
  normalize_fields := fun ticket_id => strUpper (strTrim ticket_id)
  add_flags_calculations := fun priority query =>
    let is_urgent := strContains (strLower query) "urgent" || decide (priority > 3)
    ⟨is_urgent, if is_urgent then (priority : Rat) * (3 / 2) else (priority : Rat)⟩
  solution_evaluation := fun kb_article =>
    if strContains (strLower ((kb_article.map Article.title).getD "")) "error code" then 95 else 75
  response_generation := fun customer_name query kb_article =>
    match kb_article with
    | none => .error (.keyError "title")
    | some a => .ok
        ("Hello " ++ customer_name ++ ",\n\n" ++
         "Thank you for contacting us about your query: \x27" ++ strTake query 30 ++ "...\x27.\n\n" ++
         "Based on our knowledge base, here is a relevant article that might help: \x27" ++
         a.title ++ "\x27.\n\n" ++
         "Summary: " ++ a.summary ++ "\n\n" ++
         "Regards,\nLangie Support Agent")
  extract_entities := fun query =>
    (if strContains query "Pro-Widget X" then ["Pro-Widget X"] else []) ++
    (if strContains query "error code 42" then ["error code 42"] else [])
  enrich_records := fun _ => ⟨"Gold", 5⟩
  knowledge_base_search := fun entities =>
    if entities.contains "error code 42" then
      some ⟨"KB-123", "Resolving Error Code 42 on Pro-Widget X",
            "This error is typically caused by a firmware mismatch. To resolve, please follow the steps to update the firmware..."⟩
    else
      none
  escalation_decision := fun _ => "Assigned to Tier 2 Support"
  update_ticket := fun _ _ _ => "SUCCESS"
  close_ticket := fun _ => "SUCCESS"
  trigger_notifications := fun _ _ => "SENT"

/-- Stage 1: INTAKE — accept the initial payload; only appends a log entry. -/
def stage_intake (_p : Provider) (s : AgentState) : Except Err AgentState :=
  .ok { s with log := s.log ++ ["✅ STAGE: INTAKE - Payload accepted."] }

/-- Stage 2: UNDERSTAND — parse text and extract entities; writes
`structured_data` as the merge of the two capability results. -/
def stage_understand (p : Provider) (s : AgentState) : Except Err AgentState := do
  let s := { s with log := s.log ++ ["✅ STAGE: UNDERSTAND"] }
  let q ← getF s.query "query"
  let parsed := p.parse_request_text q
  let entities := p.extract_entities q
  .ok { s with structured_data := some ⟨parsed.intent, parsed.structured_query, entities⟩ }

/-- Stage 3: PREPARE — normalize, enrich and add flags; writes
`enriched_data` as the merge of the three capability results. -/
def stage_prepare (p : Provider) (s : AgentState) : Except Err AgentState := do
  let s := { s with log := s.log ++ ["✅ STAGE: PREPARE"] }
  let tid ← getF s.ticket_id "ticket_id"
  let em ← getF s.email "email"
  let pr ← getF s.priority "priority"
  let q ← getF s.query "query"
  let norm := p.normalize_fields tid
  let enr := p.enrich_records em
  let flags := p.add_flags_calculations pr q
  let enriched : EnrichedData :=
    ⟨norm, enr.customer_sla, enr.historical_ticket_count,
     flags.is_urgent_flag, flags.calculated_priority⟩
  .ok { s with enriched_data := some enriched }

/-- Stage 6: RETRIEVE — search the knowledge base with the extracted
entities; writes `retrieved_kb_article` (possibly the empty record). -/
def stage_retrieve (p : Provider) (s : AgentState) : Except Err AgentState := do
  let s := { s with log := s.log ++ ["✅ STAGE: RETRIEVE"] }
  let sd ← getF s.structured_data "structured_data"
  .ok { s with retrieved_kb_article := some (p.knowledge_base_search sd.extracted_entities) }

/-- Stage 7: DECIDE — score the retrieved article; threshold 90 picks the
outcome, and the escalate branch additionally calls `escalation_decision`
and merges its result into `decision`.  Appends two log entries. -/
def stage_decide (p : Provider) (s : AgentState) : Except Err AgentState := do
  let s := { s with log := s.log ++ ["✅ STAGE: DECIDE"] }
  let kb ← getF s.retrieved_kb_article "retrieved_kb_article"
  let score := p.solution_evaluation kb
  if score ≥ 90 then
    let msg := "Sufficient solution found. Proceed to create response."
    .ok { s with decision := some ⟨score, "CREATE_RESPONSE", none⟩,
                 log := s.log ++
                   ["  Decision Logic: Score is " ++ toString score ++ ". " ++ msg] }
  else
    let msg := "Solution score is low. Escalating to human agent."
    let tid ← getF s.ticket_id "ticket_id"
    let esc := p.escalation_decision tid
    .ok { s with decision := some ⟨score, "ESCALATE", some esc⟩,
                 log := s.log ++
                   ["  Decision Logic: Score is " ++ toString score ++ ". " ++ msg] }

/-- Stage 9: CREATE — generate a response; writes `final_response` and sets
`final_status = RESOLVED`. -/
def stage_create (p : Provider) (s : AgentState) : Except Err AgentState := do
  let s := { s with log := s.log ++ ["✅ STAGE: CREATE"] }
  let cn ← getF s.customer_name "customer_name"
  let q ← getF s.query "query"
  let kb ← getF s.retrieved_kb_article "retrieved_kb_article"
  let resp ← p.response_generation cn q kb
  .ok { s with final_response := some resp, final_status := some "RESOLVED" }

/-- Stage 8: UPDATE — update the ticket for escalation; writes the fixed
escalation `final_response` and sets `final_status = ESCALATED`. -/
def stage_update (p : Provider) (s : AgentState) : Except Err AgentState := do
  let s := { s with log := s.log ++ ["✅ STAGE: UPDATE"] }
  let tid ← getF s.ticket_id "ticket_id"
  let _ := p.update_ticket tid "Escalated" "Tier 2 Support"
  .ok { s with final_response := some "This ticket has been escalated for human review.",
               final_status := some "ESCALATED" }

/-- Stage 10: DO — trigger the notification capability; touches no state
field besides `log`. -/
def stage_do (p : Provider) (s : AgentState) : Except Err AgentState := do
  let s := { s with log := s.log ++ ["✅ STAGE: DO"] }
  let em ← getF s.email "email"
  let fr ← getF s.final_response "final_response"
  let _ := p.execute_api_calls em fr
  .ok s

/-- Stage 11: CLOSE — close the ticket. -/
def stage_close (p : Provider) (s : AgentState) : Except Err AgentState := do
  let s := { s with log := s.log ++ ["✅ STAGE: CLOSE"] }
  let tid ← getF s.ticket_id "ticket_id"
  let _ := p.close_ticket tid
  .ok s

/-- COMPLETE — final no-op beyond logging. -/
def stage_complete (_p : Provider) (s : AgentState) : Except Err AgentState :=
  .ok { s with log := s.log ++ ["✅ STAGE: COMPLETE - Workflow finished."] }

/-- Dispatch a node name to its stage function (the `add_node` calls). -/
def execStage (p : Provider) : Node → AgentState → Except Err AgentState
  | .INTAKE => stage_intake p
  | .UNDERSTAND => stage_understand p
  | .PREPARE => stage_prepare p
  | .RETRIEVE => stage_retrieve p
  | .DECIDE => stage_decide p
  | .CREATE => stage_create p
  | .UPDATE => stage_update p
  | .DO => stage_do p
  | .CLOSE => stage_close p
  | .COMPLETE => stage_complete p

/-- Router after DECIDE: reads `decision.outcome` (KeyError when `decision`
is absent) and returns `"CREATE"` on the recognized success value, else
`"UPDATE"`. -/
def route_after_decision (s : AgentState) : Except Err String := do
  let d ← getF s.decision "decision"
  if d.outcome == "CREATE_RESPONSE" then .ok "CREATE" else .ok "UPDATE"

/-- Router after DO: reads `final_status` and returns `"CLOSE"` on
RESOLVED, else the terminal marker `"__end__"` (langgraph's END). -/
def route_after_do (s : AgentState) : Except Err String := do
  let fs ← getF s.final_status "final_status"
  if fs == "RESOLVED" then .ok "CLOSE" else .ok "__end__"

/-- An edge target: `none` is the terminal marker END. -/
abbrev Target := Option Node

/-- A node's outgoing edge configuration: a single static edge, or a router
with a label → target table (the `add_conditional_edges` calls). -/
inductive EdgeCfg where
  | static (t : Target)
  | cond (router : AgentState → Except Err String) (table : List (String × Target))

/-- The conditional edge table attached to DECIDE. -/
def decideTable : List (String × Target) :=
  [("CREATE", some .CREATE), ("UPDATE", some .UPDATE)]

/-- The conditional edge table attached to DO; END maps to the terminal
marker. -/
def doTable : List (String × Target) :=
  [("CLOSE", some .CLOSE), ("__end__", none)]

/-- The edge configuration of every node, transcribed from the `add_edge`
and `add_conditional_edges` calls in the graph-assembly section. -/
def edges : Node → EdgeCfg
  | .INTAKE => .static (some .UNDERSTAND)
  | .UNDERSTAND => .static (some .PREPARE)
  | .PREPARE => .static (some .RETRIEVE)
  | .RETRIEVE => .static (some .DECIDE)
  | .DECIDE => .cond route_after_decision decideTable
  | .CREATE => .static (some .DO)
  | .UPDATE => .static (some .DO)
  | .DO => .cond route_after_do doTable
  | .CLOSE => .static (some .COMPLETE)
  | .COMPLETE => .static none

/-- Look up a route label in a conditional edge table. -/
def lookupLabel (table : List (String × Target)) (label : String) : Option Target :=
  match table with
  | [] => none
  | (l, t) :: rest => if l == label then some t else lookupLabel rest label

/-- Resolve the node executed after `n`, on the state `n` produced:
a static target directly, otherwise the router's label looked up in the
table, failing with `UnhandledRouteLabel` on a missing entry (spec §4.1c). -/
def nextNode (n : Node) (s : AgentState) : Except Err Target :=
  match edges n with
  | .static t => .ok t
  | .cond router table => do
    let label ← router s
    match lookupLabel table label with
    | some t => .ok t
    | none => .error (.unhandledRouteLabel label)

/-- Modelled from the spec: the Engine run loop of §4.1 (the concrete loop
is supplied by the langgraph runtime and is not part of src/): execute the
current stage, resolve the outgoing edge, stop at the terminal marker.
Fuel bounds the recursion; the compiled graph is a DAG of ten nodes, so
fuel 10 never runs out.  Returns the final state and the list of executed
nodes in order. -/
def runLoop (p : Provider) : Nat → Node → AgentState → Except Err (AgentState × List Node)
  | 0, _, _ => .error .outOfFuel
  | fuel + 1, n, s => do
    let s₁ ← execStage p n s
    let t ← nextNode n s₁
    match t with
    | none => .ok (s₁, [n])
    | some m => do
      let r ← runLoop p fuel m s₁
      .ok (r.1, n :: r.2)

/-- One whole run of the compiled app from the entry point INTAKE. -/
def run (p : Provider) (s : AgentState) : Except Err (AgentState × List Node) :=
  runLoop p 10 .INTAKE s

/-- The stage sequence of a resolved run. -/
def resolvedTrace : List Node :=
  [.INTAKE, .UNDERSTAND, .PREPARE, .RETRIEVE, .DECIDE, .CREATE, .DO, .CLOSE, .COMPLETE]

/-- The stage sequence of an escalated run. -/
def escalatedTrace : List Node :=
  [.INTAKE, .UNDERSTAND, .PREPARE, .RETRIEVE, .DECIDE, .UPDATE, .DO]

/-- Modelled from the spec: the per-stage input requirements of §4.2 (the
"Precondition" column of the stage catalogue); the engine implementation
that would enforce them is supplied by the langgraph runtime and is not
part of src/. -/
def requires : Node → AgentState → Bool
  | .INTAKE, _ => true
  | .UNDERSTAND, s => s.query.isSome
  | .PREPARE, s => s.ticket_id.isSome && s.email.isSome && s.priority.isSome && s.query.isSome
  | .RETRIEVE, s => s.structured_data.isSome
  | .DECIDE, s => s.retrieved_kb_article.isSome
  | .CREATE, s => s.customer_name.isSome && s.query.isSome && s.retrieved_kb_article.isSome
  | .UPDATE, s => s.ticket_id.isSome
  | .DO, s => s.email.isSome && s.final_response.isSome
  | .CLOSE, s => s.ticket_id.isSome
  | .COMPLETE, _ => true

/-- Modelled from the spec: the Engine run loop of §4.1 with its step (a),
the precondition check: before executing each stage the declared input
requirements are checked against the state, and the run fails with
`PreconditionError` when they are not met. -/
def runLoopChecked (p : Provider) : Nat → Node → AgentState → Except Err (AgentState × List Node)
  | 0, _, _ => .error .outOfFuel
  | fuel + 1, n, s =>
    if requires n s then do
      let s₁ ← execStage p n s
      let t ← nextNode n s₁
      match t with
      | none => .ok (s₁, [n])
      | some m => do
        let r ← runLoopChecked p fuel m s₁
        .ok (r.1, n :: r.2)
    else .error (.preconditionError n)

/-- Big-step execution relation of the engine: `Exec p n s r` holds when a
run started at node `n` on state `s` produces result `r` (final state and
executed-node trace on success, error otherwise).  Written as a relation to
make determinism of the engine a provable statement rather than a
definitional triviality. -/
inductive Exec (p : Provider) : Node → AgentState → Except Err (AgentState × List Node) → Prop where
  | stageFail {n s e} :
      execStage p n s = .error e → Exec p n s (.error e)
  | routeFail {n s s₁ e} :
      execStage p n s = .ok s₁ → nextNode n s₁ = .error e → Exec p n s (.error e)
  | halt {n s s₁} :
      execStage p n s = .ok s₁ → nextNode n s₁ = .ok none → Exec p n s (.ok (s₁, [n]))
  | stepOk {n s s₁ m s₂ tr} :
      execStage p n s = .ok s₁ → nextNode n s₁ = .ok (some m) →
      Exec p m s₁ (.ok (s₂, tr)) → Exec p n s (.ok (s₂, n :: tr))
  | stepFail {n s s₁ m e} :
      execStage p n s = .ok s₁ → nextNode n s₁ = .ok (some m) →
      Exec p m s₁ (.error e) → Exec p n s (.error e)

/-- An input whose query matches no knowledge-base entity, driving the
escalation path. -/
def plainInput : AgentState where
  customer_name := some "Bob"
  email := some "bob@example.com"
  query := some "hello"
  priority := some 1
  ticket_id := some "T-1"
  log := []
  structured_data := none
  enriched_data := none
  retrieved_kb_article := none
  decision := none
  final_response := none
  final_status := none

/-- An input with every field absent except the log. -/
def emptyInput : AgentState where
  customer_name := none
  email := none
  query := none
  priority := none
  ticket_id := none
  log := []
  structured_data := none
  enriched_data := none
  retrieved_kb_article := none
  decision := none
  final_response := none
  final_status := none

/-- The final state of the run on `plainInput`: the escalation path. -/
def plainOutput : AgentState where
  customer_name := some "Bob"
  email := some "bob@example.com"
  query := some "hello"
  priority := some 1
  ticket_id := some "T-1"
  log := ["✅ STAGE: INTAKE - Payload accepted.", "✅ STAGE: UNDERSTAND", "✅ STAGE: PREPARE",
    "✅ STAGE: RETRIEVE", "✅ STAGE: DECIDE",
    "  Decision Logic: Score is 75. Solution score is low. Escalating to human agent.",
    "✅ STAGE: UPDATE", "✅ STAGE: DO"]
  structured_data := some ⟨"general_inquiry", "hello", []⟩
  enriched_data := some ⟨"T-1", "Gold", 5, false, 1⟩
  retrieved_kb_article := some none
  decision := some ⟨75, "ESCALATE", some "Assigned to Tier 2 Support"⟩
  final_response := some "This ticket has been escalated for human review."
  final_status := some "ESCALATED"

/-- A provider whose scoring capability returns exactly the threshold 90. -/
def providerNinety : Provider :=
  { defaultProvider with solution_evaluation := fun _ => 90 }

/-- A state ready for DECIDE: the article field is present (empty record). -/
def decideInput : AgentState :=
  { emptyInput with retrieved_kb_article := some none, ticket_id := some "T-1" }

/-- The state `stage_decide` produces from `decideInput` under
`providerNinety`. -/
def decideOutputNinety : AgentState :=
  { decideInput with
    log := ["✅ STAGE: DECIDE",
      "  Decision Logic: Score is 90. Sufficient solution found. Proceed to create response."],
    decision := some ⟨90, "CREATE_RESPONSE", none⟩ }

/-- A state ready for RETRIEVE whose extracted entity list is empty. -/
def retrieveInput : AgentState :=
  { emptyInput with
    structured_data := some ⟨"general_inquiry", "hello", []⟩,
    ticket_id := some "T-1",
    email := some "bob@example.com" }

/-- A state ready for DO. -/
def doInput : AgentState :=
  { emptyInput with email := some "bob@example.com", final_response := some "done" }

/-- The state `stage_do` produces from `doInput`. -/
def doOutput : AgentState :=
  { doInput with log := ["✅ STAGE: DO"] }

/-- The state `stage_intake` produces from `emptyInput`. -/
def intakeOutput : AgentState :=
  { emptyInput with log := ["✅ STAGE: INTAKE - Payload accepted."] }

/-- A state carrying a success decision record. -/
def decisionState : AgentState :=
  { emptyInput with decision := some ⟨95, "CREATE_RESPONSE", none⟩ }

/-! ### Inversion helpers -/

/-- A bind on a success reduces to the continuation. -/
@[simp] theorem ok_bind (a : α) (k : α → Except Err β) :
    (Except.ok a >>= k) = k a := rfl

/-- A bind on a failure propagates the failure. -/
@[simp] theorem error_bind (e : Err) (k : α → Except Err β) :
    ((Except.error e : Except Err α) >>= k) = Except.error e := rfl

/-- Inverting a successful `Except` bind. -/
theorem bind_ok_iff {e : Except Err α} {k : α → Except Err β} {r : β} :
    (e >>= k) = .ok r ↔ ∃ a, e = .ok a ∧ k a = .ok r := by
  cases e <;> simp [Bind.bind, Except.bind]

/-- Inverting a successful state-field read. -/
@[simp] theorem getF_ok_iff {o : Option α} {name : String} {a : α} :
    getF o name = .ok a ↔ o = some a := by
  cases o <;> simp [getF]

/-- A state-field read never succeeds on an absent field. -/
@[simp] theorem getF_none (name : String) :
    getF (α := α) none name = .error (.keyError name) := rfl

/-! ### Shape of complete runs -/

set_option maxHeartbeats 4000000 in
/-- Every successful run of the compiled graph takes one of exactly two
paths: the resolved path through CREATE/CLOSE/COMPLETE (10 log entries) or
the escalated path ending at DO (8 log entries). -/
theorem run_shape (p : Provider) (s s' : AgentState) (tr : List Node)
    (h : run p s = .ok (s', tr)) :
    (tr = resolvedTrace ∧ s'.final_status = some "RESOLVED" ∧
      s'.log.length = s.log.length + 10) ∨
    (tr = escalatedTrace ∧ s'.final_status = some "ESCALATED" ∧
      s'.log.length = s.log.length + 8) := by
  cases hq : s.query with
  | none => simp [run, runLoop, execStage, stage_intake, stage_understand, nextNode, edges,
      getF, hq] at h
  | some q =>
  cases htid : s.ticket_id with
  | none => simp [run, runLoop, execStage, stage_intake, stage_understand, stage_prepare,
      nextNode, edges, getF, hq, htid] at h
  | some tid =>
  cases hem : s.email with
  | none => simp [run, runLoop, execStage, stage_intake, stage_understand, stage_prepare,
      nextNode, edges, getF, hq, htid, hem] at h
  | some em =>
  cases hpr : s.priority with
  | none => simp [run, runLoop, execStage, stage_intake, stage_understand, stage_prepare,
      nextNode, edges, getF, hq, htid, hem, hpr] at h
  | some pr =>
  by_cases hscore :
      90 ≤ p.solution_evaluation (p.knowledge_base_search (p.extract_entities q))
  · cases hcn : s.customer_name with
    | none => simp [run, runLoop, execStage, stage_intake, stage_understand, stage_prepare,
        stage_retrieve, stage_decide, stage_create, nextNode, edges, lookupLabel,
        route_after_decision, decideTable, getF, hq, htid, hem, hpr, hcn, hscore] at h
    | some cn =>
    cases hrg : p.response_generation cn q (p.knowledge_base_search (p.extract_entities q)) with
    | error e => simp [run, runLoop, execStage, stage_intake, stage_understand, stage_prepare,
        stage_retrieve, stage_decide, stage_create, nextNode, edges, lookupLabel,
        route_after_decision, decideTable, getF, hq, htid, hem, hpr, hcn, hscore, hrg] at h
    | ok resp =>
    simp [run, runLoop, execStage, stage_intake, stage_understand, stage_prepare,
      stage_retrieve, stage_decide, stage_create, stage_do, stage_close, stage_complete,
      nextNode, edges, lookupLabel, route_after_decision, route_after_do, decideTable,
      doTable, getF, hq, htid, hem, hpr, hcn, hscore, hrg] at h
    obtain ⟨hs, ht⟩ := h
    subst hs; subst ht
    left
    refine ⟨rfl, rfl, ?_⟩
    simp
  · simp [run, runLoop, execStage, stage_intake, stage_understand, stage_prepare,
      stage_retrieve, stage_decide, stage_update, stage_do, nextNode, edges, lookupLabel,
      route_after_decision, route_after_do, decideTable, doTable, getF,
      hq, htid, hem, hpr, hscore] at h
    obtain ⟨hs, ht⟩ := h
    subst hs; subst ht
    right
    refine ⟨rfl, rfl, ?_⟩
    simp

/-! ### Per-stage effects -/

/-- Every successful stage execution appends its log entries at the end of
the existing log (two entries for DECIDE, one for every other stage), and
only CREATE and UPDATE ever change `final_status`. -/
theorem execStage_effects (p : Provider) (n : Node) (s s' : AgentState)
    (h : execStage p n s = .ok s') :
    (∃ t, s'.log = s.log ++ t ∧ t.length = if n = Node.DECIDE then 2 else 1) ∧
    (n ≠ Node.CREATE → n ≠ Node.UPDATE → s'.final_status = s.final_status) := by
  cases n with
  | INTAKE =>
    simp [execStage, stage_intake] at h
    subst h
    exact ⟨⟨["✅ STAGE: INTAKE - Payload accepted."], by simp, by simp⟩, fun _ _ => rfl⟩
  | UNDERSTAND =>
    cases hq : s.query with
    | none => simp [execStage, stage_understand, getF, hq] at h
    | some q =>
      simp [execStage, stage_understand, getF, hq] at h
      subst h
      exact ⟨⟨["✅ STAGE: UNDERSTAND"], by simp, by simp⟩, fun _ _ => rfl⟩
  | PREPARE =>
    cases htid : s.ticket_id with
    | none => simp [execStage, stage_prepare, getF, htid] at h
    | some tid =>
    cases hem : s.email with
    | none => simp [execStage, stage_prepare, getF, htid, hem] at h
    | some em =>
    cases hpr : s.priority with
    | none => simp [execStage, stage_prepare, getF, htid, hem, hpr] at h
    | some pr =>
    cases hq : s.query with
    | none => simp [execStage, stage_prepare, getF, htid, hem, hpr, hq] at h
    | some q =>
      simp [execStage, stage_prepare, getF, htid, hem, hpr, hq] at h
      subst h
      exact ⟨⟨["✅ STAGE: PREPARE"], by simp, by simp⟩, fun _ _ => rfl⟩
  | RETRIEVE =>
    cases hsd : s.structured_data with
    | none => simp [execStage, stage_retrieve, getF, hsd] at h
    | some sd =>
      simp [execStage, stage_retrieve, getF, hsd] at h
      subst h
      exact ⟨⟨["✅ STAGE: RETRIEVE"], by simp, by simp⟩, fun _ _ => rfl⟩
  | DECIDE =>
    cases hkb : s.retrieved_kb_article with
    | none => simp [execStage, stage_decide, getF, hkb] at h
    | some kb =>
      by_cases hscore : 90 ≤ p.solution_evaluation kb
      · simp [execStage, stage_decide, getF, hkb, hscore] at h
        subst h
        refine ⟨⟨["✅ STAGE: DECIDE",
          "  Decision Logic: Score is " ++ toString (p.solution_evaluation kb) ++ ". " ++
            "Sufficient solution found. Proceed to create response."], by simp, by simp⟩,
          fun _ _ => rfl⟩
      · cases htid : s.ticket_id with
        | none => simp [execStage, stage_decide, getF, hkb, hscore, htid] at h
        | some tid =>
          simp [execStage, stage_decide, getF, hkb, hscore, htid] at h
          subst h
          refine ⟨⟨["✅ STAGE: DECIDE",
            "  Decision Logic: Score is " ++ toString (p.solution_evaluation kb) ++ ". " ++
              "Solution score is low. Escalating to human agent."], by simp, by simp⟩,
            fun _ _ => rfl⟩
  | CREATE =>
    cases hcn : s.customer_name with
    | none => simp [execStage, stage_create, getF, hcn] at h
    | some cn =>
    cases hq : s.query with
    | none => simp [execStage, stage_create, getF, hcn, hq] at h
    | some q =>
    cases hkb : s.retrieved_kb_article with
    | none => simp [execStage, stage_create, getF, hcn, hq, hkb] at h
    | some kb =>
    cases hrg : p.response_generation cn q kb with
    | error e => simp [execStage, stage_create, getF, hcn, hq, hkb, hrg] at h
    | ok resp =>
      simp [execStage, stage_create, getF, hcn, hq, hkb, hrg] at h
      subst h
      exact ⟨⟨["✅ STAGE: CREATE"], by simp, by simp⟩, fun hc _ => absurd rfl hc⟩
  | UPDATE =>
    cases htid : s.ticket_id with
    | none => simp [execStage, stage_update, getF, htid] at h
    | some tid =>
      simp [execStage, stage_update, getF, htid] at h
      subst h
      exact ⟨⟨["✅ STAGE: UPDATE"], by simp, by simp⟩, fun _ hu => absurd rfl hu⟩
  | DO =>
    cases hem : s.email with
    | none => simp [execStage, stage_do, getF, hem] at h
    | some em =>
    cases hfr : s.final_response with
    | none => simp [execStage, stage_do, getF, hem, hfr] at h
    | some fr =>
      simp [execStage, stage_do, getF, hem, hfr] at h
      subst h
      exact ⟨⟨["✅ STAGE: DO"], by simp, by simp⟩, fun _ _ => rfl⟩
  | CLOSE =>
    cases htid : s.ticket_id with
    | none => simp [execStage, stage_close, getF, htid] at h
    | some tid =>
      simp [execStage, stage_close, getF, htid] at h
      subst h
      exact ⟨⟨["✅ STAGE: CLOSE"], by simp, by simp⟩, fun _ _ => rfl⟩
  | COMPLETE =>
    simp [execStage, stage_complete] at h
    subst h
    exact ⟨⟨["✅ STAGE: COMPLETE - Workflow finished."], by simp, by simp⟩, fun _ _ => rfl⟩

/-- Over any successful engine segment the log only grows by appending. -/
theorem runLoop_log_mono (p : Provider) :
    ∀ (fuel : Nat) (n : Node) (s s' : AgentState) (tr : List Node),
      runLoop p fuel n s = .ok (s', tr) → ∃ u, s'.log = s.log ++ u := by
  intro fuel
  induction fuel with
  | zero => intro n s s' tr h; simp [runLoop] at h
  | succ fuel ih =>
    intro n s s' tr h
    simp only [runLoop, bind_ok_iff] at h
    obtain ⟨s₁, hst, t, hnx, hrest⟩ := h
    obtain ⟨u₁, hu₁, _⟩ := (execStage_effects p n s s₁ hst).1
    cases t with
    | none =>
      simp at hrest
      obtain ⟨hs', _⟩ := hrest
      subst hs'
      exact ⟨u₁, hu₁⟩
    | some m =>
      simp only [bind_ok_iff] at hrest
      obtain ⟨r, hr, hinj⟩ := hrest
      simp at hinj
      obtain ⟨hs', _⟩ := hinj
      obtain ⟨u₂, hu₂⟩ := ih m s₁ r.1 r.2 (by rw [hr])
      subst hs'
      exact ⟨u₁ ++ u₂, by rw [hu₂, hu₁, List.append_assoc]⟩

/-- The concrete escalation run used to instantiate the run-level claims. -/
theorem runPlain : run defaultProvider plainInput = .ok (plainOutput, escalatedTrace) := rfl

end LangSupport

namespace LangSupport

/-- C1: with the article field present, DECIDE writes outcome
CREATE_RESPONSE when the scoring capability returns at least 90, and
outcome ESCALATE with the escalation-assignment result merged into the
decision record when the score is below 90; a score of exactly 90 yields
CREATE_RESPONSE. -/
theorem claim_C1 (p : Provider) (s s' : AgentState) (kb : Option Article)
    (hkb : s.retrieved_kb_article = some kb) (h : stage_decide p s = .ok s') :
    (90 ≤ p.solution_evaluation kb →
      s'.decision = some ⟨p.solution_evaluation kb, "CREATE_RESPONSE", none⟩) ∧
    (p.solution_evaluation kb < 90 →
      ∃ tid, s.ticket_id = some tid ∧
        s'.decision = some ⟨p.solution_evaluation kb, "ESCALATE",
          some (p.escalation_decision tid)⟩) ∧
    (p.solution_evaluation kb = 90 →
      s'.decision.map Decision.outcome = some "CREATE_RESPONSE") := by
  by_cases hscore : 90 ≤ p.solution_evaluation kb
  · simp [stage_decide, getF, hkb, hscore] at h
    subst h
    exact ⟨fun _ => rfl, fun hlt => absurd hscore (not_le.mpr hlt), fun _ => rfl⟩
  · cases htid : s.ticket_id with
    | none => simp [stage_decide, getF, hkb, hscore, htid] at h
    | some tid =>
      simp [stage_decide, getF, hkb, hscore, htid] at h
      subst h
      exact ⟨fun hge => absurd hge hscore, fun _ => ⟨tid, rfl, rfl⟩,
        fun heq => absurd heq.ge hscore⟩

/-- Witness for C1 at the threshold boundary: a provider scoring exactly 90
drives the CREATE_RESPONSE outcome. -/
theorem claim_C1_witness :
    decideOutputNinety.decision.map Decision.outcome = some "CREATE_RESPONSE" :=
  (claim_C1 providerNinety decideInput decideOutputNinety none rfl rfl).2.2 rfl

/-- C2: before executing a stage, the checked engine verifies the stage's
declared input requirements and fails the run with `PreconditionError` when
they are not met, so no stage runs without its required fields; in
particular UNDERSTAND requires `query` and RETRIEVE requires
`structured_data` to be present. -/
theorem claim_C2 (p : Provider) (fuel : Nat) (n : Node) (s : AgentState)
    (hf : fuel ≠ 0) (h : requires n s = false) :
    runLoopChecked p fuel n s = .error (.preconditionError n) ∧
    requires Node.UNDERSTAND s = s.query.isSome ∧
    requires Node.RETRIEVE s = s.structured_data.isSome := by
  refine ⟨?_, rfl, rfl⟩
  cases fuel with
  | zero => exact absurd rfl hf
  | succ fuel => simp [runLoopChecked, h]

/-- Witness for C2: UNDERSTAND on a state without `query` fails with
`PreconditionError` before the stage runs. -/
theorem claim_C2_witness :
    runLoopChecked defaultProvider 1 Node.UNDERSTAND emptyInput =
      .error (.preconditionError Node.UNDERSTAND) :=
  (claim_C2 defaultProvider 1 Node.UNDERSTAND emptyInput (by decide) rfl).1

/-- C3: in every completed run, final_status RESOLVED holds iff CREATE
executed and ESCALATED iff UPDATE executed; exactly one of the two stages
executes, and only those two stages ever write `final_status`. -/
theorem claim_C3 (p : Provider) (s s' : AgentState) (tr : List Node)
    (h : run p s = .ok (s', tr)) :
    (s'.final_status = some "RESOLVED" ↔ Node.CREATE ∈ tr) ∧
    (s'.final_status = some "ESCALATED" ↔ Node.UPDATE ∈ tr) ∧
    tr.count Node.CREATE + tr.count Node.UPDATE = 1 ∧
    (∀ n s₀ s₁, execStage p n s₀ = .ok s₁ → s₁.final_status ≠ s₀.final_status →
      n = Node.CREATE ∨ n = Node.UPDATE) := by
  have frame : ∀ n s₀ s₁, execStage p n s₀ = .ok s₁ → s₁.final_status ≠ s₀.final_status →
      n = Node.CREATE ∨ n = Node.UPDATE := by
    intro n s₀ s₁ hex hne
    by_contra hc
    push_neg at hc
    exact hne ((execStage_effects p n s₀ s₁ hex).2 hc.1 hc.2)
  rcases run_shape p s s' tr h with ⟨ht, hfs, -⟩ | ⟨ht, hfs, -⟩ <;> subst ht
  · exact ⟨by rw [hfs]; decide, by rw [hfs]; decide, by decide, frame⟩
  · exact ⟨by rw [hfs]; decide, by rw [hfs]; decide, by decide, frame⟩

/-- Witness for C3 on the concrete escalation run. -/
theorem claim_C3_witness :
    plainOutput.final_status = some "ESCALATED" ↔ Node.UPDATE ∈ escalatedTrace :=
  (claim_C3 defaultProvider plainInput plainOutput escalatedTrace runPlain).2.1

/-- C4: after DO the router returns CLOSE iff final_status is RESOLVED, in
which case CLOSE and then COMPLETE execute; otherwise the run ends at DO
and neither CLOSE nor COMPLETE executes. -/
theorem claim_C4 (p : Provider) (s s' : AgentState) (tr : List Node)
    (h : run p s = .ok (s', tr)) :
    (route_after_do s' = .ok "CLOSE" ↔ s'.final_status = some "RESOLVED") ∧
    (s'.final_status = some "RESOLVED" → tr = resolvedTrace) ∧
    (s'.final_status ≠ some "RESOLVED" →
      tr = escalatedTrace ∧ tr.getLast? = some Node.DO ∧
        Node.CLOSE ∉ tr ∧ Node.COMPLETE ∉ tr) := by
  rcases run_shape p s s' tr h with ⟨ht, hfs, -⟩ | ⟨ht, hfs, -⟩ <;> subst ht
  · refine ⟨?_, fun _ => rfl, fun hne => absurd hfs hne⟩
    simp [route_after_do, getF, hfs]
  · refine ⟨?_, fun hr => ?_, fun _ => ⟨rfl, by decide, by decide, by decide⟩⟩
    · simp [route_after_do, getF, hfs]
    · simp [hfs] at hr

/-- Witness for C4 on the concrete escalation run. -/
theorem claim_C4_witness :
    route_after_do plainOutput = .ok "CLOSE" ↔ plainOutput.final_status = some "RESOLVED" :=
  (claim_C4 defaultProvider plainInput plainOutput escalatedTrace runPlain).1

/-- C5: the router after DECIDE returns CREATE exactly when
decision.outcome is CREATE_RESPONSE and UPDATE for every other outcome;
both labels are in the conditional edge table, so no unhandled-label error
can arise at this branch. -/
theorem claim_C5 (s : AgentState) (d : Decision) (hd : s.decision = some d) :
    (route_after_decision s = .ok "CREATE" ↔ d.outcome = "CREATE_RESPONSE") ∧
    (d.outcome ≠ "CREATE_RESPONSE" → route_after_decision s = .ok "UPDATE") ∧
    lookupLabel decideTable "CREATE" = some (some Node.CREATE) ∧
    lookupLabel decideTable "UPDATE" = some (some Node.UPDATE) ∧
    (∀ l, nextNode Node.DECIDE s ≠ .error (.unhandledRouteLabel l)) := by
  by_cases ho : d.outcome = "CREATE_RESPONSE"
  · refine ⟨by simp [route_after_decision, getF, hd, ho], fun hno => absurd ho hno,
      rfl, rfl, ?_⟩
    intro l hl
    simp [nextNode, edges, route_after_decision, getF, hd, ho, lookupLabel] at hl
  · refine ⟨by simp [route_after_decision, getF, hd, ho],
      fun _ => by simp [route_after_decision, getF, hd, ho], rfl, rfl, ?_⟩
    intro l hl
    simp [nextNode, edges, route_after_decision, getF, hd, ho, lookupLabel] at hl

/-- Witness for C5 on a concrete success decision. -/
theorem claim_C5_witness :
    route_after_decision decisionState = .ok "CREATE" ↔
      (Decision.mk 95 "CREATE_RESPONSE" none).outcome = "CREATE_RESPONSE" :=
  (claim_C5 decisionState ⟨95, "CREATE_RESPONSE", none⟩ rfl).1

/-- C6: every successful stage execution appends at least one entry at the
end of the log (the old log is a prefix of the new one), and across any
successful engine segment the initial log is preserved as a prefix, so log
length never decreases. -/
theorem claim_C6 (p : Provider) (n : Node) (s s' : AgentState)
    (h : execStage p n s = .ok s') :
    (s'.log.take s.log.length = s.log ∧ s.log.length < s'.log.length) ∧
    (∀ fuel n₀ s₀ s₁ tr, runLoop p fuel n₀ s₀ = .ok (s₁, tr) →
      s₁.log.take s₀.log.length = s₀.log) := by
  constructor
  · obtain ⟨t, ht, hlen⟩ := (execStage_effects p n s s' h).1
    have htne : t.length ≠ 0 := by
      rw [hlen]; split <;> simp
    constructor
    · rw [ht]; exact List.take_left s.log t
    · rw [ht, List.length_append]; omega
  · intro fuel n₀ s₀ s₁ tr₀ hrun
    obtain ⟨u, hu⟩ := runLoop_log_mono p fuel n₀ s₀ s₁ tr₀ hrun
    rw [hu]; exact List.take_left s₀.log u

/-- Witness for C6 on a concrete INTAKE execution. -/
theorem claim_C6_witness :
    intakeOutput.log.take emptyInput.log.length = emptyInput.log ∧
      emptyInput.log.length < intakeOutput.log.length :=
  (claim_C6 defaultProvider Node.INTAKE emptyInput intakeOutput rfl).1

/-- C7: with an empty extracted-entity list, the knowledge-base search
returns the empty record, DECIDE still executes and scores it 75 (below the
threshold 90), and the run takes the escalation path through UPDATE,
ending at DO. -/
theorem claim_C7 (s : AgentState) (sd : StructuredData) (tid em : String)
    (hsd : s.structured_data = some sd) (he : sd.extracted_entities = [])
    (htid : s.ticket_id = some tid) (hem : s.email = some em) :
    ∃ s', runLoop defaultProvider 10 Node.RETRIEVE s =
        .ok (s', [Node.RETRIEVE, Node.DECIDE, Node.UPDATE, Node.DO]) ∧
      s'.retrieved_kb_article = some none ∧
      defaultProvider.solution_evaluation none = 75 ∧ (75 : Int) < 90 ∧
      s'.decision = some ⟨75, "ESCALATE", some "Assigned to Tier 2 Support"⟩ ∧
      s'.final_status = some "ESCALATED" := by
  have hkb0 : defaultProvider.knowledge_base_search [] = none := rfl
  have hsc : defaultProvider.solution_evaluation none = 75 := rfl
  have hesc : ∀ t : String, defaultProvider.escalation_decision t = "Assigned to Tier 2 Support" :=
    fun _ => rfl
  have hline : "  Decision Logic: Score is " ++ toString (75 : Int) ++ ". " ++
      "Solution score is low. Escalating to human agent." =
      "  Decision Logic: Score is 75. Solution score is low. Escalating to human agent." := rfl
  refine ⟨{ s with
      log := s.log ++ ["✅ STAGE: RETRIEVE", "✅ STAGE: DECIDE",
        "  Decision Logic: Score is 75. Solution score is low. Escalating to human agent.",
        "✅ STAGE: UPDATE", "✅ STAGE: DO"],
      retrieved_kb_article := some none,
      decision := some ⟨75, "ESCALATE", some "Assigned to Tier 2 Support"⟩,
      final_response := some "This ticket has been escalated for human review.",
      final_status := some "ESCALATED" }, ?_, rfl, rfl, by decide, rfl, rfl⟩
  simp [runLoop, execStage, stage_retrieve, stage_decide, stage_update, stage_do,
    nextNode, edges, lookupLabel, route_after_decision, route_after_do, decideTable,
    doTable, getF, hsd, he, htid, hem, hkb0, hsc, hesc, hline]

/-- Witness for C7 on a concrete no-match state. -/
theorem claim_C7_witness :
    (runLoop defaultProvider 10 Node.RETRIEVE retrieveInput).isOk = true := by
  obtain ⟨s', hs', -⟩ :=
    claim_C7 retrieveInput ⟨"general_inquiry", "hello", []⟩ "T-1" "bob@example.com"
      rfl rfl rfl rfl
  rw [hs']
  rfl

/-- C8: DO changes no state field besides the log, to which it appends
exactly its stage entry. -/
theorem claim_C8 (p : Provider) (s s' : AgentState) (h : stage_do p s = .ok s') :
    s'.customer_name = s.customer_name ∧ s'.email = s.email ∧ s'.query = s.query ∧
    s'.priority = s.priority ∧ s'.ticket_id = s.ticket_id ∧
    s'.structured_data = s.structured_data ∧ s'.enriched_data = s.enriched_data ∧
    s'.retrieved_kb_article = s.retrieved_kb_article ∧ s'.decision = s.decision ∧
    s'.final_response = s.final_response ∧ s'.final_status = s.final_status ∧
    s'.log = s.log ++ ["✅ STAGE: DO"] := by
  cases hem : s.email with
  | none => simp [stage_do, getF, hem] at h
  | some em =>
  cases hfr : s.final_response with
  | none => simp [stage_do, getF, hem, hfr] at h
  | some fr =>
    simp [stage_do, getF, hem, hfr] at h
    subst h
    exact ⟨rfl, rfl, rfl, rfl, rfl, rfl, rfl, rfl, rfl, rfl, rfl, rfl⟩

/-- Witness for C8 on a concrete DO execution. -/
theorem claim_C8_witness :
    doOutput.final_status = doInput.final_status ∧
      doOutput.log = doInput.log ++ ["✅ STAGE: DO"] := by
  obtain ⟨-, -, -, -, -, -, -, -, -, -, h11, h12⟩ :=
    claim_C8 defaultProvider doInput doOutput rfl
  exact ⟨h11, h12⟩

/-- C9: the engine is deterministic: two runs started at the same node and
state under the same capability provider produce the same result — the
same final state (including its log) and the same executed-stage trace. -/
theorem claim_C9 (p : Provider) (n : Node) (s : AgentState)
    (r₁ r₂ : Except Err (AgentState × List Node))
    (h₁ : Exec p n s r₁) (h₂ : Exec p n s r₂) : r₁ = r₂ := by
  induction h₁ generalizing r₂ with
  | stageFail hst =>
    cases h₂ with
    | stageFail hst' => rw [hst] at hst'; cases hst'; rfl
    | routeFail hst' hnx' => rw [hst] at hst'; cases hst'
    | halt hst' hnx' => rw [hst] at hst'; cases hst'
    | stepOk hst' hnx' hrec' => rw [hst] at hst'; cases hst'
    | stepFail hst' hnx' hrec' => rw [hst] at hst'; cases hst'
  | routeFail hst hnx =>
    cases h₂ with
    | stageFail hst' => rw [hst] at hst'; cases hst'
    | routeFail hst' hnx' =>
      rw [hst] at hst'; cases hst'; rw [hnx] at hnx'; cases hnx'; rfl
    | halt hst' hnx' => rw [hst] at hst'; cases hst'; rw [hnx] at hnx'; cases hnx'
    | stepOk hst' hnx' hrec' => rw [hst] at hst'; cases hst'; rw [hnx] at hnx'; cases hnx'
    | stepFail hst' hnx' hrec' => rw [hst] at hst'; cases hst'; rw [hnx] at hnx'; cases hnx'
  | halt hst hnx =>
    cases h₂ with
    | stageFail hst' => rw [hst] at hst'; cases hst'
    | routeFail hst' hnx' => rw [hst] at hst'; cases hst'; rw [hnx] at hnx'; cases hnx'
    | halt hst' hnx' => rw [hst] at hst'; cases hst'; rfl
    | stepOk hst' hnx' hrec' => rw [hst] at hst'; cases hst'; rw [hnx] at hnx'; cases hnx'
    | stepFail hst' hnx' hrec' => rw [hst] at hst'; cases hst'; rw [hnx] at hnx'; cases hnx'
  | stepOk hst hnx hrec ih =>
    cases h₂ with
    | stageFail hst' => rw [hst] at hst'; cases hst'
    | routeFail hst' hnx' => rw [hst] at hst'; cases hst'; rw [hnx] at hnx'; cases hnx'
    | halt hst' hnx' => rw [hst] at hst'; cases hst'; rw [hnx] at hnx'; cases hnx'
    | stepOk hst' hnx' hrec' =>
      rw [hst] at hst'; cases hst'; rw [hnx] at hnx'; cases hnx'
      have := ih _ hrec'
      cases this
      rfl
    | stepFail hst' hnx' hrec' =>
      rw [hst] at hst'; cases hst'; rw [hnx] at hnx'; cases hnx'
      have := ih _ hrec'
      cases this
  | stepFail hst hnx hrec ih =>
    cases h₂ with
    | stageFail hst' => rw [hst] at hst'; cases hst'
    | routeFail hst' hnx' => rw [hst] at hst'; cases hst'; rw [hnx] at hnx'; cases hnx'
    | halt hst' hnx' => rw [hst] at hst'; cases hst'; rw [hnx] at hnx'; cases hnx'
    | stepOk hst' hnx' hrec' =>
      rw [hst] at hst'; cases hst'; rw [hnx] at hnx'; cases hnx'
      have := ih _ hrec'
      cases this
    | stepFail hst' hnx' hrec' =>
      rw [hst] at hst'; cases hst'; rw [hnx] at hnx'; cases hnx'
      exact ih _ hrec'

/-- Witness for C9: two executions from the same empty-query input agree on
the same result. -/
theorem claim_C9_witness :
    (Except.error (Err.keyError "query") : Except Err (AgentState × List Node)) =
      Except.error (Err.keyError "query") :=
  claim_C9 defaultProvider Node.INTAKE emptyInput _ _
    (Exec.stepFail rfl rfl (Exec.stageFail rfl))
    (Exec.stepFail rfl rfl (Exec.stageFail rfl))

/-- C10: every stage appends exactly one log entry except DECIDE, which
appends two; consequently a completed run's log grows by exactly 10 entries
on the resolved path and 8 on the escalated path. -/
theorem claim_C10 (p : Provider) (s s' : AgentState) (tr : List Node)
    (h : run p s = .ok (s', tr)) :
    (∀ n s₀ s₁, execStage p n s₀ = .ok s₁ →
      s₁.log.length = s₀.log.length + if n = Node.DECIDE then 2 else 1) ∧
    ((tr = resolvedTrace ∧ s'.log.length = s.log.length + 10) ∨
     (tr = escalatedTrace ∧ s'.log.length = s.log.length + 8)) := by
  constructor
  · intro n s₀ s₁ hx
    obtain ⟨t, ht, hlen⟩ := (execStage_effects p n s₀ s₁ hx).1
    rw [ht, List.length_append, hlen]
  · rcases run_shape p s s' tr h with ⟨ht, -, hlen⟩ | ⟨ht, -, hlen⟩
    · exact Or.inl ⟨ht, hlen⟩
    · exact Or.inr ⟨ht, hlen⟩

/-- Witness for C10 on the concrete escalation run: 8 entries. -/
theorem claim_C10_witness :
    (escalatedTrace = resolvedTrace ∧ plainOutput.log.length = plainInput.log.length + 10) ∨
    (escalatedTrace = escalatedTrace ∧ plainOutput.log.length = plainInput.log.length + 8) :=
  (claim_C10 defaultProvider plainInput plainOutput escalatedTrace runPlain).2

end LangSupport
